import Mathlib

/-!
Verification of the evaluation component of the Pytorch-UNet repository
(src/evaluate.py and src/evaluate_dataset.py).

Tensors are embedded shallowly: a mask or prediction is a list of batch items,
each item a list of per-pixel rational values with all spatial dimensions
flattened into one (every reduction in the code sums over all non-batch
dimensions, so the flattening is faithful).  Real-valued framework losses
(cross entropy, BCE) involve transcendental functions and are abstracted as a
rational-valued field of the model; no property below depends on their value.
The Dice functions live in `utils/dice_score.py`, which is imported by
`evaluate.py` but is not among the provided sources; they are modelled from
the specification, as marked in their doc comments.
-/

namespace UNetEval

/-- Ground-truth mask labels: one integer class id per pixel, one row per batch
item, spatial dimensions flattened. -/
abbrev Labels := List (List ℤ)

/-- Default numerical-stability constant of the Dice functions (1e-6). -/
def eps_default : ℚ := 1 / 1000000

/-- Dice value of a single flattened item pair:
(2*sum(p*t) + eps) / (sum p + sum t + eps). -/
def diceItem (p t : List ℚ) (eps : ℚ) : ℚ :=
  (2 * (List.zipWith (fun a b => a * b) p t).sum + eps) / (p.sum + t.sum + eps)

/-- Modelled from the spec: `dice_coeff` of `utils/dice_score.py`, a file not
among the provided sources (evaluate.py imports it).  Spec 4.1: with
reduce_batch_first, the intersection is the sum of the elementwise product over
all dimensions and one Dice value is produced from the global sums; otherwise
one Dice value is computed per batch item and the arithmetic mean across the
batch is returned.  The elementwise product keeps the batch structure here
(summed per item and then across the batch, as torch sums over a dimension
tuple); the claim theorem below relates this to the fully flattened form. -/
def dice_coeff (pred target : List (List ℚ)) (reduce_batch_first : Bool) (eps : ℚ) : ℚ :=
  if reduce_batch_first then
    (2 * (List.zipWith (fun p t => (List.zipWith (fun a b => a * b) p t).sum) pred target).sum
        + eps) /
      ((pred.map List.sum).sum + (target.map List.sum).sum + eps)
  else
    (List.zipWith (fun p t => diceItem p t eps) pred target).sum / pred.length

/-- Modelled from the spec: `multiclass_dice_coeff` of `utils/dice_score.py`
(not among the provided sources).  Arguments are in channel-major layout
pred[class][batch][pixel]; the binary Dice coefficient is computed
independently per class channel, same reduce_batch_first and epsilon semantics,
and the arithmetic mean across channels is returned (channel order does not
matter, it is a mean). -/
def multiclass_dice_coeff (pred target : List (List (List ℚ)))
    (reduce_batch_first : Bool) (eps : ℚ) : ℚ :=
  (List.zipWith (fun p t => dice_coeff p t reduce_batch_first eps) pred target).sum /
    pred.length

/-- A tensor argument of `dice_loss`: binary form [batch][pixel] or multiclass
form [class][batch][pixel]. -/
inductive MaskT
  | binary (m : List (List ℚ))
  | multi (m : List (List (List ℚ)))

/-- Modelled from the spec: `dice_loss` of `utils/dice_score.py` (not among the
provided sources).  Spec 4.3: the flag selects the binary or the multiclass
Dice coefficient, which is evaluated with reduce_batch_first = true, and
1 minus it is returned.  A constructor mismatch between the flag and the
arguments never happens for valid inputs and is mapped to 0. -/
def dice_loss (input target : MaskT) (multiclass : Bool) : ℚ :=
  match multiclass, input, target with
  | false, MaskT.binary p, MaskT.binary t => 1 - dice_coeff p t true eps_default
  | true, MaskT.multi p, MaskT.multi t => 1 - multiclass_dice_coeff p t true eps_default
  | _, _, _ => 0

/-- Model mode toggled by net.eval() and net.train(). -/
inductive Mode
  | train
  | eval
  deriving DecidableEq

/-- Errors one iteration of the evaluate loop can raise.
labelRangeError models the rejection of an out-of-range class label inside the
multiclass loss computation of lines 36-41 (both nn.CrossEntropyLoss and
F.one_hot raise on a target outside [0, n_classes), before the assert on
line 51 can run); assertionError is a failure of the assert statements on
lines 46 and 51; typeError models a model output whose shape does not fit the
branch. -/
inductive EvalErr
  | assertionError
  | labelRangeError
  | typeError
  deriving DecidableEq

/-- A model prediction: binary logits [batch][pixel] (the singleton channel
dimension of the [N,1,H,W] output is absorbed by the flattening) or multiclass
logits [batch][class][pixel]. -/
inductive Pred
  | binary (p : List (List ℚ))
  | multi (p : List (List (List ℚ)))

/-- The external model collaborator of evaluate: a class count, the forward
pass, and the value of `criterion(...) + dice_loss(...)` of lines 31-42,
abstracted into a rational-valued function because its value goes through
sigmoid, softmax and logarithms; no claim below depends on that value. -/
structure Net (I : Type) where
  n_classes : ℕ
  forward : I → Pred
  lossOf : I → Labels → ℚ

/-- The condition of the assert on line 46: mask_true.min() >= 0 and
mask_true.max() <= 1, i.e. every label lies in [0, 1]. -/
def labelsInBinRange (m : Labels) : Bool :=
  m.all fun r => r.all fun v => decide (0 ≤ v) && decide (v ≤ 1)

/-- Every label lies in [0, n_classes): the range required by the multiclass
loss computation (cross entropy and one-hot) and checked again by the assert
on line 51. -/
def labelsInClassRange (n : ℕ) (m : Labels) : Bool :=
  m.all fun r => r.all fun v => decide (0 ≤ v) && decide (v < (n : ℤ))

/-- The test `F.sigmoid(x) > 0.5` of line 47 on a logit x: the sigmoid is
strictly increasing with sigmoid 0 = 1/2, so the test holds exactly when
0 < x; the hard-thresholding of the sigmoid output at 0.5 is embedded through
this equivalent test on the logit (the sigmoid itself is transcendental). -/
def sigmoid_gt_half (x : ℚ) : Bool := decide (0 < x)

/-- Line 47, `(F.sigmoid(mask_pred) > 0.5).float()`: the binary hard mask. -/
def binHard (p : List (List ℚ)) : List (List ℚ) :=
  p.map fun row => row.map fun x => if sigmoid_gt_half x then 1 else 0

/-- Integer labels viewed as floats, as in `dice_coeff(mask_pred, mask_true, ...)`
on line 49 where mask_true is the integer tensor. -/
def labelsFloat (m : Labels) : List (List ℚ) :=
  m.map fun row => row.map fun v => (v : ℚ)

/-- Index of the first maximal entry of the remaining list, given the best
index and value seen so far. -/
def argmaxAux (bi : ℕ) (bv : ℚ) (i : ℕ) : List ℚ → ℕ
  | [] => bi
  | x :: rest => if bv < x then argmaxAux i x (i + 1) rest else argmaxAux bi bv (i + 1) rest

/-- torch.argmax over a vector: index of the first maximal entry (0 on the
empty vector, which torch rejects; no claim evaluates that corner). -/
def argmaxIdx : List ℚ → ℕ
  | [] => 0
  | x :: rest => argmaxAux 0 x 1 rest

/-- The class-score vector of one pixel of one item, the item given as
[class][pixel]. -/
def classVecAt (pb : List (List ℚ)) (i : ℕ) : List ℚ :=
  pb.map fun ch => ch.getD i 0

/-- Line 54, `mask_pred.argmax(dim=1)`: per item and pixel, the class index of
the first maximal logit. -/
def argmaxLabels (p : List (List (List ℚ))) : Labels :=
  p.map fun pb => (List.range (pb.headD []).length).map fun i =>
    ((argmaxIdx (classVecAt pb i) : ℕ) : ℤ)

/-- `F.one_hot(mask, n).permute(0, 3, 1, 2).float()` of lines 53-54 in
channel-major layout: channel c holds 1 at a pixel exactly when the label
there is c. -/
def oneHotChannels (n : ℕ) (m : Labels) : List (List (List ℚ)) :=
  (List.range n).map fun c => m.map fun row => row.map fun v =>
    if v = (c : ℤ) then (1 : ℚ) else 0

/-- One iteration of the loop of evaluate (src/evaluate.py lines 21-56) on the
running pair (dice_score, loss_total).  Order of effects follows the source:
the forward pass, then the loss accumulation of lines 31-42 (whose multiclass
branch already rejects out-of-range labels, see `EvalErr.labelRangeError`),
then the range assert, then the hard-mask Dice accumulation of lines 45-56. -/
def batchStep {I : Type} (net : Net I) (st : ℚ × ℚ) (b : I × Labels) :
    Except EvalErr (ℚ × ℚ) :=
  let image := b.1
  let mask_true := b.2
  let mask_pred := net.forward image
  if net.n_classes == 1 then
    match mask_pred with
    | Pred.binary p =>
      let loss_total := st.2 + net.lossOf image mask_true
      if labelsInBinRange mask_true then
        Except.ok
          (st.1 + dice_coeff (binHard p) (labelsFloat mask_true) false eps_default,
            loss_total)
      else Except.error EvalErr.assertionError
    | Pred.multi _ => Except.error EvalErr.typeError
  else
    match mask_pred with
    | Pred.multi p =>
      if labelsInClassRange net.n_classes mask_true then
        let loss_total := st.2 + net.lossOf image mask_true
        Except.ok
          (st.1 +
              multiclass_dice_coeff ((oneHotChannels net.n_classes (argmaxLabels p)).drop 1)
                ((oneHotChannels net.n_classes mask_true).drop 1) false eps_default,
            loss_total)
      else Except.error EvalErr.labelRangeError
    | Pred.binary _ => Except.error EvalErr.typeError

/-- The whole loop of evaluate, starting from dice_score = 0, loss_total = 0. -/
def evaluateLoop {I : Type} (net : Net I) (batches : List (I × Labels)) :
    Except EvalErr (ℚ × ℚ) :=
  batches.foldlM (batchStep net) ((0 : ℚ), (0 : ℚ))

/-- The evaluate function of src/evaluate.py.  It calls net.eval() at entry and
net.train() only after the loop, with no try/finally, so the returned model
mode is train on the normal path and stays eval when an exception propagates.
On the normal path both running sums are divided by max(num_val_batches, 1)
(line 59). -/
def evaluate {I : Type} (net : Net I) (batches : List (I × Labels)) :
    Mode × Except EvalErr (ℚ × ℚ) :=
  match evaluateLoop net batches with
  | Except.ok r =>
      (Mode.train,
        Except.ok (r.1 / ((max batches.length 1 : ℕ) : ℚ),
          r.2 / ((max batches.length 1 : ℕ) : ℚ)))
  | Except.error e => (Mode.eval, Except.error e)

/-- Errors arising in the CLI script src/evaluate_dataset.py. -/
inductive CliErr
  | typeError
  | attributeError
  | valueError
  deriving DecidableEq

/-- A Python value reaching the reporting code of the CLI: a plain float, or
the 2-tuple (dice, loss) that evaluate returns. -/
inductive PyVal
  | float (q : ℚ)
  | pair (a b : ℚ)

/-- Python `format(value, ".4f")` as used by the f-strings of lines 120-122:
defined on numbers; a tuple does not support a float format spec, so
tuple.__format__ raises TypeError.  The rendered text of a number is
immaterial to every claim and is left as a plain print of the rational. -/
def pyFormatFixed4 : PyVal → Except CliErr String
  | PyVal.float q => Except.ok (toString q)
  | PyVal.pair _ _ => Except.error CliErr.typeError

/-- Python `value.item()` as used on lines 127-129: tensors and numbers expose
it; a tuple has no item attribute, so the access raises AttributeError. -/
def pyItem : PyVal → Except CliErr ℚ
  | PyVal.float q => Except.ok q
  | PyVal.pair _ _ => Except.error CliErr.attributeError

/-- Lines 116-148 of src/evaluate_dataset.py after the three evaluate calls:
train_score, val_score and test_score are bound to the (dice, loss) pairs that
evaluate returns; the three prints format them with the .4f spec, the scores
list calls .item() on them, and only then is results/scores.csv written.  On
success the value is the list of rows written to the CSV file. -/
def writeScoresCsv (train_score val_score test_score : ℚ × ℚ) :
    Except CliErr (List (List String)) := do
  _ ← pyFormatFixed4 (PyVal.pair train_score.1 train_score.2)
  _ ← pyFormatFixed4 (PyVal.pair val_score.1 val_score.2)
  _ ← pyFormatFixed4 (PyVal.pair test_score.1 test_score.2)
  let tr ← pyItem (PyVal.pair train_score.1 train_score.2)
  let vl ← pyItem (PyVal.pair val_score.1 val_score.2)
  let te ← pyItem (PyVal.pair test_score.1 test_score.2)
  Except.ok [["Dataset", "Score"], ["Training", toString tr],
    ["Validation", toString vl], ["Test", toString te]]

/-- Python `range(start, stop, step)` with a non-negative step: raises
ValueError when the step is zero. -/
def pyRange (start stop step : ℕ) : Except CliErr (List ℕ) :=
  if step = 0 then Except.error CliErr.valueError
  else Except.ok ((List.range ((stop - start + step - 1) / step)).map fun i =>
    start + i * step)

/-- qualitative_results of src/evaluate_dataset.py (lines 30-51), tracked up to
its file outputs.  Line 32 builds `Subset(dataset, range(0, len_dataset,
len_dataset // 6))`, whose range raises ValueError when the step
len_dataset // 6 is zero; everything after it (the loader, the forward pass,
the interpolations) is pure tensor movement with no file output, and the three
save_image calls at lines 48-50 write the returned files. -/
def qualitative_results (len_dataset : ℕ) (path : String) :
    Except CliErr (List String) := do
  let _idxs ← pyRange 0 len_dataset (len_dataset / 6)
  Except.ok [path ++ "/images.png", path ++ "/true_masks.png", path ++ "/out_masks.png"]

/-- Exceptions of dataset construction in src/evaluate_dataset.py. -/
inductive DsErr
  | assertionError
  | runtimeError
  | indexError
  | osError
  deriving DecidableEq

/-- The exception classes listed in every `except (AssertionError, RuntimeError,
IndexError)` clause of lines 82, 93, 98 and 103. -/
def caughtByFallback : DsErr → Bool
  | DsErr.assertionError => true
  | DsErr.runtimeError => true
  | DsErr.indexError => true
  | DsErr.osError => false

/-- One `try: CarvanaDataset(...) except (AssertionError, RuntimeError,
IndexError): BasicDataset(...)` block of src/evaluate_dataset.py: if the
format-specific constructor raises one of the three caught classes, the
generic constructor on the same directory is used in its place; any other
exception propagates, and a success is used as is. -/
def buildDataset {DS : Type} (carvana basic : Except DsErr DS) : Except DsErr DS :=
  match carvana with
  | Except.ok d => Except.ok d
  | Except.error e => if caughtByFallback e then basic else Except.error e

/-- DataLoader configuration: the keyword arguments with observable batching
semantics (num_workers and pin_memory affect performance only). -/
structure LoaderCfg where
  batch_size : ℕ
  shuffle : Bool
  drop_last : Bool
  deriving DecidableEq

/-- Line 113: `DataLoader(val_set, shuffle=False, drop_last=True,
batch_size=32, ...)`. -/
def valLoaderCfg : LoaderCfg := { batch_size := 32, shuffle := false, drop_last := true }

/-- Line 114: `DataLoader(test_set, shuffle=False, drop_last=True,
batch_size=32, ...)`. -/
def testLoaderCfg : LoaderCfg := { batch_size := 32, shuffle := false, drop_last := true }

/-- Successive chunks of a given positive size; the final chunk may be
shorter.  A batch size of zero never occurs (the script uses 32). -/
def chunksOf {S : Type} : ℕ → List S → List (List S)
  | _, [] => []
  | 0, _ :: _ => []
  | bs + 1, x :: xs => (x :: xs).take (bs + 1) :: chunksOf (bs + 1) (xs.drop bs)
termination_by _ l => l.length
decreasing_by
  simpa using Nat.lt_succ_of_le (Nat.sub_le xs.length bs)

/-- The batches a DataLoader with shuffle=False yields over a dataset given as
a list of samples: consecutive chunks of batch_size samples, the trailing
incomplete chunk dropped when drop_last is set, each chunk collated into one
batched (image, mask) pair by the framework collation (kept abstract). -/
def dataLoaderBatches {S I : Type} (collate : List S → I × Labels) (cfg : LoaderCfg)
    (ds : List S) : List (I × Labels) :=
  ((chunksOf cfg.batch_size ds).filter fun c =>
      !cfg.drop_last || decide (c.length = cfg.batch_size)).map collate

/-- Lines 79-89 and 108, the --default branch: the dataset is split into
train and validation parts by random_split with a fixed seed (kept abstract as
the split argument; its permutation is opaque but deterministic), with
n_val = int(len(dataset) * 0.1) modelled as the floor len/10 (its exact value
is irrelevant to the claims), and then test_set = val_set. -/
def defaultSplits {S : Type} (split : List S → ℕ → ℕ → List S × List S)
    (dataset : List S) : List S × List S × List S :=
  let n_val := dataset.length / 10
  let n_train := dataset.length - n_val
  let p := split dataset n_train n_val
  (p.1, p.2, p.2)

/-- Success test on an Except value. -/
def exIsOk {ε α : Type} : Except ε α → Bool
  | Except.ok _ => true
  | Except.error _ => false

/-- Elementwise product commutes with flattening the batch structure when the
two batches have equal shapes. -/
theorem zipWith_mul_flatten (pred target : List (List ℚ))
    (hshape : pred.map List.length = target.map List.length) :
    List.zipWith (fun a b => a * b) pred.flatten target.flatten =
      (List.zipWith (fun p t => List.zipWith (fun a b => a * b) p t) pred target).flatten := by
  induction pred generalizing target with
  | nil =>
    cases target with
    | nil => simp
    | cons t ts => simp at hshape
  | cons p ps ih =>
    cases target with
    | nil => simp at hshape
    | cons t ts =>
      simp only [List.map_cons, List.cons.injEq] at hshape
      rw [List.flatten_cons, List.flatten_cons, List.zipWith_cons_cons, List.flatten_cons,
        List.zipWith_append _ _ _ _ _ hshape.1, ih ts hshape.2]

/-- Claim C2: with reduce_batch_first, dice_coeff is one global Dice value,
the intersection being the sum of the elementwise product over all dimensions
and the denominator the total sums of the two arrays plus eps; without it, one
Dice value is computed per batch item and their arithmetic mean across the
batch is returned. -/
theorem dice_coeff_spec (pred target : List (List ℚ)) (eps : ℚ)
    (hshape : pred.map List.length = target.map List.length) :
    dice_coeff pred target true eps =
        (2 * (List.zipWith (fun a b => a * b) pred.flatten target.flatten).sum + eps) /
          (pred.flatten.sum + target.flatten.sum + eps) ∧
    dice_coeff pred target false eps =
        (List.zipWith (fun p t => diceItem p t eps) pred target).sum / pred.length := by
  constructor
  · rw [zipWith_mul_flatten pred target hshape]
    simp only [dice_coeff, if_true, List.sum_flatten, List.map_zipWith]
  · rfl

/-- Witness for C2 at the concrete pair pred = [[1,0],[0,1]],
target = [[1,1],[0,0]] of equal shapes. -/
theorem dice_coeff_spec_witness :
    ([[(1 : ℚ), 0], [0, 1]].map List.length = [[(1 : ℚ), 1], [0, 0]].map List.length) ∧
    (dice_coeff [[(1 : ℚ), 0], [0, 1]] [[(1 : ℚ), 1], [0, 0]] true eps_default =
        (2 * (List.zipWith (fun a b => a * b)
            ([[(1 : ℚ), 0], [0, 1]] : List (List ℚ)).flatten
            ([[(1 : ℚ), 1], [0, 0]] : List (List ℚ)).flatten).sum + eps_default) /
          (([[(1 : ℚ), 0], [0, 1]] : List (List ℚ)).flatten.sum +
            ([[(1 : ℚ), 1], [0, 0]] : List (List ℚ)).flatten.sum + eps_default) ∧
      dice_coeff [[(1 : ℚ), 0], [0, 1]] [[(1 : ℚ), 1], [0, 0]] false eps_default =
        (List.zipWith (fun p t => diceItem p t eps_default)
            [[(1 : ℚ), 0], [0, 1]] [[(1 : ℚ), 1], [0, 0]]).sum / 2) :=
  ⟨by decide,
    dice_coeff_spec [[(1 : ℚ), 0], [0, 1]] [[(1 : ℚ), 1], [0, 0]] eps_default (by decide)⟩

/-- Claim C4: dice_loss is exactly one minus the Dice coefficient computed
with reduce_batch_first = true — the binary dice_coeff when the multiclass
flag is false and multiclass_dice_coeff when it is true. -/
theorem dice_loss_one_minus_dice :
    (∀ p t : List (List ℚ),
      dice_loss (MaskT.binary p) (MaskT.binary t) false =
        1 - dice_coeff p t true eps_default) ∧
    (∀ p t : List (List (List ℚ)),
      dice_loss (MaskT.multi p) (MaskT.multi t) true =
        1 - multiclass_dice_coeff p t true eps_default) :=
  ⟨fun _ _ => rfl, fun _ _ => rfl⟩

/-- Claim C1, amended: evaluate switches the model into evaluation mode at
entry and restores training mode exactly on the normal-return path; when an
error is raised mid-loop the exception propagates without a restore (the
source has no try/finally), so after an exceptional exit the model is still in
evaluation mode. -/
theorem evaluate_mode_on_exit {I : Type} (net : Net I) (batches : List (I × Labels)) :
    (evaluate net batches).1 =
      (if exIsOk (evaluateLoop net batches) then Mode.train else Mode.eval) := by
  cases hx : evaluateLoop net batches <;> simp [evaluate, exIsOk, hx]

/-- Counterexample to C1 as stated: a one-class model evaluated on a single
batch whose ground-truth label 2 is outside [0, 1] makes the label assert
raise mid-loop; evaluate then terminates by exception with the model left in
evaluation mode, not training mode. -/
theorem evaluate_mode_cex :
    exIsOk (evaluateLoop
        { n_classes := 1, forward := fun _ => Pred.binary [[0]],
          lossOf := fun _ _ => 0 : Net Unit } [((), [[2]])]) = false ∧
    (evaluate
        { n_classes := 1, forward := fun _ => Pred.binary [[0]],
          lossOf := fun _ _ => 0 : Net Unit } [((), [[2]])]).1 = Mode.eval ∧
    Mode.eval ≠ Mode.train :=
  ⟨rfl, rfl, by decide⟩

/-- Claim C5: on an empty dataloader evaluate returns score 0 and loss 0, and
on every dataloader the final division divides by max(batch count, 1), so the
empty case divides by 1 and cannot raise a division error. -/
theorem evaluate_empty_dataloader {I : Type} (net : Net I) :
    evaluate net [] = (Mode.train, Except.ok ((0 : ℚ), (0 : ℚ))) ∧
    ∀ batches : List (I × Labels),
      (evaluate net batches).2 = (evaluateLoop net batches).map
        (fun r => (r.1 / ((max batches.length 1 : ℕ) : ℚ),
          r.2 / ((max batches.length 1 : ℕ) : ℚ))) := by
  constructor
  · simp [evaluate, evaluateLoop, List.foldlM_nil, pure, Except.pure]
  · intro batches
    cases hx : evaluateLoop net batches <;> simp [evaluate, hx, Except.map]

/-- Claim C3: in the multiclass branch (more than one class) the per-batch
Dice increment is the multiclass Dice coefficient with reduce_batch_first =
false of the one-hot encodings of the arg-max labels against the one-hot
ground truth, with channel 0 (background) dropped from both; in the binary
branch the increment is the binary Dice coefficient with reduce_batch_first =
false of the hard mask obtained by thresholding the sigmoid output at 0.5
(equivalently, logit > 0) against the float ground truth. -/
theorem evaluate_hard_mask_score {I : Type} (net : Net I) (img : I) (m : Labels)
    (ds lt : ℚ) :
    (∀ p, 1 < net.n_classes → net.forward img = Pred.multi p →
      labelsInClassRange net.n_classes m = true →
      batchStep net (ds, lt) (img, m) =
        Except.ok
          (ds + multiclass_dice_coeff
              ((oneHotChannels net.n_classes (argmaxLabels p)).drop 1)
              ((oneHotChannels net.n_classes m).drop 1) false eps_default,
            lt + net.lossOf img m)) ∧
    (∀ p, net.n_classes = 1 → net.forward img = Pred.binary p →
      labelsInBinRange m = true →
      batchStep net (ds, lt) (img, m) =
        Except.ok (ds + dice_coeff (binHard p) (labelsFloat m) false eps_default,
          lt + net.lossOf img m)) := by
  constructor
  · intro p hn hf hr
    have hne : (net.n_classes == 1) = false := by
      simp only [beq_eq_false_iff_ne]
      omega
    simp [batchStep, hf, hne, hr]
  · intro p hn hf hr
    simp [batchStep, hf, hn, hr]

/-- Witness for C3: a two-class model and a one-class model, each on one
concrete in-range batch, take the stated score increments. -/
theorem evaluate_hard_mask_score_witness :
    batchStep
        { n_classes := 2, forward := fun _ => Pred.multi [[[1, 0], [0, 1]]],
          lossOf := fun _ _ => 0 : Net Unit } (0, 0) ((), [[0, 1]]) =
      Except.ok
        (0 + multiclass_dice_coeff
            ((oneHotChannels 2 (argmaxLabels [[[1, 0], [0, 1]]])).drop 1)
            ((oneHotChannels 2 [[0, 1]]).drop 1) false eps_default,
          0 + 0) ∧
    batchStep
        { n_classes := 1, forward := fun _ => Pred.binary [[1, -1]],
          lossOf := fun _ _ => 0 : Net Unit } (0, 0) ((), [[1, 0]]) =
      Except.ok (0 + dice_coeff (binHard [[1, -1]]) (labelsFloat [[1, 0]]) false eps_default,
        0 + 0) :=
  ⟨(evaluate_hard_mask_score
        { n_classes := 2, forward := fun _ => Pred.multi [[[1, 0], [0, 1]]],
          lossOf := fun _ _ => 0 : Net Unit } () [[0, 1]] 0 0).1
      [[[1, 0], [0, 1]]] (by decide) rfl (by decide),
    (evaluate_hard_mask_score
        { n_classes := 1, forward := fun _ => Pred.binary [[1, -1]],
          lossOf := fun _ _ => 0 : Net Unit } () [[1, 0]] 0 0).2
      [[1, -1]] rfl rfl (by decide)⟩

/-- A fold in the Except monad cannot succeed when some list element fails at
every accumulator state. -/
theorem foldlM_mem_err {σ α ε : Type} (f : σ → α → Except ε σ) (x : α)
    (hx : ∀ s, ∃ e, f s x = Except.error e) :
    ∀ (l : List α) (s : σ), x ∈ l → ∀ r, l.foldlM f s ≠ Except.ok r := by
  intro l
  induction l with
  | nil =>
    intro s hmem
    simp at hmem
  | cons a t ih =>
    intro s hmem r hok
    rw [List.foldlM_cons] at hok
    cases hfa : f s a with
    | error e =>
      rw [hfa] at hok
      simp only [bind, Except.bind] at hok
      cases hok
    | ok s2 =>
      rw [hfa] at hok
      simp only [bind, Except.bind] at hok
      rcases List.mem_cons.mp hmem with h | h
      · obtain ⟨e, he⟩ := hx s
        rw [h] at he
        rw [hfa] at he
        cases he
      · exact ih s2 h r hok

/-- Claim C6: a batch with an out-of-range ground-truth label never succeeds:
with a one-class model and a binary-shaped prediction the label assert of
line 46 fails; with a multiclass model and a multiclass prediction the
label-range rejection inside the loss computation fires; in every case the
iteration errors, so an evaluation whose dataloader contains such a batch
never returns a score — the out-of-range batch contributes nothing to the
accumulated Dice score. -/
theorem evaluate_label_range_aborts {I : Type} (net : Net I)
    (batches : List (I × Labels)) (b : I × Labels) (hmem : b ∈ batches)
    (hbad : (if net.n_classes == 1 then labelsInBinRange b.2
      else labelsInClassRange net.n_classes b.2) = false) :
    (∀ st, ∃ e, batchStep net st b = Except.error e) ∧
    (∀ p st, net.n_classes = 1 → net.forward b.1 = Pred.binary p →
      batchStep net st b = Except.error EvalErr.assertionError) ∧
    (∀ p st, 1 < net.n_classes → net.forward b.1 = Pred.multi p →
      batchStep net st b = Except.error EvalErr.labelRangeError) ∧
    (∀ r, evaluateLoop net batches ≠ Except.ok r) := by
  have hstep : ∀ st, ∃ e, batchStep net st b = Except.error e := by
    intro st
    by_cases hn : net.n_classes = 1
    · rw [if_pos (by simp [hn])] at hbad
      cases hf : net.forward b.1 with
      | binary p => exact ⟨EvalErr.assertionError, by simp [batchStep, hn, hf, hbad]⟩
      | multi p => exact ⟨EvalErr.typeError, by simp [batchStep, hn, hf]⟩
    · rw [if_neg (by simp [hn])] at hbad
      have hne : (net.n_classes == 1) = false := by
        simp only [beq_eq_false_iff_ne]
        exact hn
      cases hf : net.forward b.1 with
      | binary p => exact ⟨EvalErr.typeError, by simp [batchStep, hne, hf]⟩
      | multi p => exact ⟨EvalErr.labelRangeError, by simp [batchStep, hne, hf, hbad]⟩
  refine ⟨hstep, ?_, ?_, foldlM_mem_err (batchStep net) b hstep batches _ hmem⟩
  · intro p st hn hf
    rw [if_pos (by simp [hn])] at hbad
    simp [batchStep, hn, hf, hbad]
  · intro p st hn hf
    have hne : (net.n_classes == 1) = false := by
      simp only [beq_eq_false_iff_ne]
      omega
    rw [if_neg (by simp [hne])] at hbad
    simp [batchStep, hne, hf, hbad]

/-- Witness for C6: a one-class model on a single batch whose label 2 is out
of [0, 1] fails the assert and the loop never returns a score. -/
theorem evaluate_label_range_aborts_witness :
    batchStep
        { n_classes := 1, forward := fun _ => Pred.binary [[0]],
          lossOf := fun _ _ => 0 : Net Unit } (0, 0) ((), [[2]]) =
      Except.error EvalErr.assertionError ∧
    ∀ r, evaluateLoop
        { n_classes := 1, forward := fun _ => Pred.binary [[0]],
          lossOf := fun _ _ => 0 : Net Unit } [((), [[2]])] ≠ Except.ok r :=
  ⟨(evaluate_label_range_aborts
        { n_classes := 1, forward := fun _ => Pred.binary [[0]],
          lossOf := fun _ _ => 0 : Net Unit } [((), [[2]])] ((), [[2]])
        (by simp) (by decide)).2.1 [[0]] (0, 0) rfl rfl,
    (evaluate_label_range_aborts
        { n_classes := 1, forward := fun _ => Pred.binary [[0]],
          lossOf := fun _ _ => 0 : Net Unit } [((), [[2]])] ((), [[2]])
        (by simp) (by decide)).2.2.2⟩

/-- Claim C7, evaluated at the failing point: whatever (dice, loss) pairs the
three evaluate calls return, the reporting code of the CLI raises TypeError
while formatting the first pair with the .4f float spec, so the rows of
results/scores.csv are never produced. -/
theorem writeScoresCsv_raises (train_score val_score test_score : ℚ × ℚ) :
    writeScoresCsv train_score val_score test_score = Except.error CliErr.typeError :=
  rfl

/-- Claim C8: the dataset-construction fallback recovers exactly the three
caught exception classes by building the generic loader instead; a successful
format-specific construction is kept, and any other exception propagates. -/
theorem dataset_fallback_recovery {DS : Type} (carvana basic : Except DsErr DS) :
    (∀ e, carvana = Except.error e → caughtByFallback e = true →
      buildDataset carvana basic = basic) ∧
    (∀ d, carvana = Except.ok d → buildDataset carvana basic = carvana) ∧
    (∀ e, carvana = Except.error e → caughtByFallback e = false →
      buildDataset carvana basic = Except.error e) := by
  refine ⟨?_, ?_, ?_⟩
  · intro e he hc
    rw [he]
    simp [buildDataset, hc]
  · intro d hd
    rw [hd]
    simp [buildDataset]
  · intro e he hc
    rw [he]
    simp [buildDataset, hc]

/-- Witness for C8: a RuntimeError from the format-specific loader is
recovered by the generic loader, a success is kept, and an OSError
propagates. -/
theorem dataset_fallback_recovery_witness :
    buildDataset (Except.error DsErr.runtimeError) (Except.ok (0 : ℕ)) = Except.ok 0 ∧
    buildDataset (Except.ok (1 : ℕ)) (Except.ok 0) = Except.ok 1 ∧
    buildDataset (Except.error DsErr.osError : Except DsErr ℕ) (Except.ok 0) =
      Except.error DsErr.osError :=
  ⟨(dataset_fallback_recovery (Except.error DsErr.runtimeError) (Except.ok (0 : ℕ))).1
      DsErr.runtimeError rfl rfl,
    (dataset_fallback_recovery (Except.ok (1 : ℕ)) (Except.ok 0)).2.1 1 rfl,
    (dataset_fallback_recovery (Except.error DsErr.osError : Except DsErr ℕ)
        (Except.ok 0)).2.2 DsErr.osError rfl rfl⟩

/-- Claim C9: on a dataset with fewer than 6 items the subsampling step
len_dataset // 6 is zero, so the range of line 32 raises ValueError and
qualitative_results fails before any image file is written. -/
theorem qualitative_results_small_dataset (n : ℕ) (path : String) (h : n < 6) :
    qualitative_results n path = Except.error CliErr.valueError := by
  have h6 : n / 6 = 0 := Nat.div_eq_of_lt h
  simp [qualitative_results, pyRange, h6, bind, Except.bind]

/-- Witness for C9 at a dataset of 5 items. -/
theorem qualitative_results_small_dataset_witness :
    5 < 6 ∧ qualitative_results 5 "results/val" = Except.error CliErr.valueError :=
  ⟨by decide, qualitative_results_small_dataset 5 "results/val" (by decide)⟩

/-- Claim C10: in the --default branch the test split is the validation split
and the test loader configuration equals the validation loader configuration,
so the Test evaluation is literally the same computation as the Validation
evaluation and the two reported scores are equal. -/
theorem default_test_equals_val {S I : Type} (split : List S → ℕ → ℕ → List S × List S)
    (collate : List S → I × Labels) (net : Net I) (dataset : List S) :
    (defaultSplits split dataset).2.2 = (defaultSplits split dataset).2.1 ∧
    testLoaderCfg = valLoaderCfg ∧
    evaluate net (dataLoaderBatches collate testLoaderCfg (defaultSplits split dataset).2.2) =
      evaluate net (dataLoaderBatches collate valLoaderCfg (defaultSplits split dataset).2.1) :=
  ⟨rfl, rfl, rfl⟩

end UNetEval
